import Mathlib

/-!
# Verification of the `weather` command-line utility

Shallow embedding of `main.go` of the `jtlehtinen/weather` repository
(the canonical, icon-glyph-inclusive variant) and proofs about it.

Conventions of the embedding:
* Go `float64` fields are embedded as `ℚ`; the display-rounding claims
  considered here only involve values on which the rational and the
  IEEE-754 double behave identically under Go's `%.0f` / `%.1f`
  formatting (which rounds to nearest, ties to even).
* `fmt.Printf` calls are embedded as pure functions producing the string
  written to standard output; `time.Now()` is embedded as an explicit
  `now : Int` parameter (seconds since the Unix epoch).
* The I/O shell of `fetchWeather` (issuing the GET, reading the body) is
  embedded by passing the HTTP status code and the decoded response value
  as explicit parameters; everything after the I/O is translated directly.
* Go `switch`/`if` control flow is translated directly.
-/

namespace WeatherApp

/-! ## Decimal rendering of natural numbers (Go's integer formatting) -/

/-- The decimal digit character for `n < 10`. -/
def digitChar (n : Nat) : Char := Char.ofNat (48 + n)

/-- Fuel-driven digit accumulator: prepends the decimal digits of `n`
to `acc`, most significant first. The fuel always suffices when it is
at least `n + 1`. -/
def natDigitsAux : Nat → Nat → List Char → List Char
  | 0, _, acc => acc
  | fuel + 1, n, acc =>
    if n < 10 then digitChar n :: acc
    else natDigitsAux fuel (n / 10) (digitChar (n % 10) :: acc)

/-- Decimal digit characters of `n`, most significant first
(Go's decimal integer formatting). -/
def natDigits (n : Nat) : List Char := natDigitsAux (n + 1) n []

/-- Decimal string of a natural number. -/
def natRepr (n : Nat) : String := String.mk (natDigits n)

/-- Number of newline characters in a string. -/
def countNL (s : String) : Nat := s.data.count '\n'

/-! ## The data model (`Weather` and `options` from `main.go`) -/

/-- The `Weather` struct of `main.go`. Numeric `float64` fields are
embedded as `ℚ`, `TimeZone` (an offset in seconds) as `Int`. -/
structure Weather where
  cityName : String
  timeZone : Int
  visibility : ℚ
  temperature : ℚ
  pressure : ℚ
  humidity : ℚ
  windSpeed : ℚ
  windDegrees : ℚ
  conditions : String
  icon : String
deriving Repr, DecidableEq

/-- The `options` struct of `main.go`. -/
structure options where
  apiKey : String
  units : String
  verbose : Bool
  city : String
deriving Repr, DecidableEq

/-! ## The icon mapper (`weatherIconToString` in `main.go`) -/

/-- Direct translation of Go's `weatherIconToString`: a `switch` on the
provider icon code, returning a display glyph, with default `""`. -/
def weatherIconToString (icon : String) : String :=
  match icon with
  | "01d" => "☀️" -- clear sky day
  | "02d" => "⛅" -- few clouds day
  | "03d" => "☁️" -- scattered clouds day
  | "04d" => "☁️" -- broken clouds day
  | "09d" => "🌧️" -- shower rain day
  | "10d" => "🌦️" -- rain day
  | "11d" => "⛈️" -- thunderstorm day
  | "13d" => "❄️" -- snow day
  | "50d" => "🌫️" -- mist day
  | "01n" => "🌑" -- clear sky night
  | "02n" => "⛅" -- few clouds night
  | "03n" => "☁️" -- scattered clouds night
  | "04n" => "☁️" -- broken clouds night
  | "09n" => "🌧️" -- shower rain night
  | "10n" => "🌦️" -- rain night
  | "11n" => "⛈️" -- thunderstorm night
  | "13n" => "❄️" -- snow night
  | "50n" => "🌫️" -- mist night
  | _ => ""

/-- The fixed, hand-maintained table of known icon codes and their
glyphs, as listed in the cases of `weatherIconToString`. -/
def iconTable : List (String × String) :=
  [("01d", "☀️"), ("02d", "⛅"), ("03d", "☁️"), ("04d", "☁️"),
   ("09d", "🌧️"), ("10d", "🌦️"), ("11d", "⛈️"), ("13d", "❄️"),
   ("50d", "🌫️"),
   ("01n", "🌑"), ("02n", "⛅"), ("03n", "☁️"), ("04n", "☁️"),
   ("09n", "🌧️"), ("10n", "🌦️"), ("11n", "⛈️"), ("13n", "❄️"),
   ("50n", "🌫️")]

/-! ## Go's fixed-precision float formatting (`%.0f`, `%.1f`)

Go's `strconv` formats a float with fixed precision by rounding the value
to the nearest representation, ties to even. -/

/-- Round a rational to the nearest integer, ties to even
(the rounding Go's fixed-precision `%f` formatting performs). -/
def rhe (q : ℚ) : Int :=
  let f := ⌊q⌋
  let d := q - (f : ℚ)
  if 2 * d < 1 then f
  else if 1 < 2 * d then f + 1
  else if f % 2 = 0 then f else f + 1

/-- Go's `%.0f` (and `%0.f`) formatting of a (rational-embedded) float. -/
def fmtF0 (q : ℚ) : String :=
  (if q < 0 then "-" else "") ++ natRepr (rhe |q|).toNat

/-- Go's `%.1f` formatting of a (rational-embedded) float. -/
def fmtF1 (q : ℚ) : String :=
  let m := (rhe (|q| * 10)).toNat
  (if q < 0 then "-" else "") ++ natRepr (m / 10) ++ "." ++ natRepr (m % 10)

/-! ## Go's `time.Stamp` formatting (`"Jan _2 15:04:05"`) -/

/-- Zero-padded two-digit field (`15`, `04`, `05` verbs of `time.Stamp`). -/
def pad02 (n : Nat) : String :=
  if n < 10 then "0" ++ natRepr n else natRepr n

/-- Space-padded two-digit day field (`_2` verb of `time.Stamp`). -/
def padSpace2 (n : Nat) : String :=
  if n < 10 then " " ++ natRepr n else natRepr n

/-- The three-letter month abbreviation for month number `m ∈ [1,12]`
used by Go's `Jan` verb (Go indexes a fixed array of month names;
months outside the range cannot arise). -/
def monthAbbrev (m : Nat) : String :=
  match m with
  | 1 => "Jan"
  | 2 => "Feb"
  | 3 => "Mar"
  | 4 => "Apr"
  | 5 => "May"
  | 6 => "Jun"
  | 7 => "Jul"
  | 8 => "Aug"
  | 9 => "Sep"
  | 10 => "Oct"
  | 11 => "Nov"
  | 12 => "Dec"
  | _ => ""

/-- Civil (proleptic Gregorian) date from a count of days since the Unix
epoch: `(year, month, day)` with `month ∈ [1,12]`, `day ∈ [1,31]`.
This is the standard era-based algorithm Go's `time` package implements. -/
def civilFromDays (z0 : Int) : Int × Nat × Nat :=
  let z := z0 + 719468
  let era := z.fdiv 146097
  let doe := (z - era * 146097).toNat
  let yoe := (doe - doe / 1460 + doe / 36524 - doe / 146096) / 365
  let doy := doe - (365 * yoe + yoe / 4 - yoe / 100)
  let mp := (5 * doy + 2) / 153
  let d := doy - (153 * mp + 2) / 5 + 1
  let m := if mp < 10 then mp + 3 else mp - 9
  let y : Int := era * 400 + yoe + (if m ≤ 2 then 1 else 0)
  (y, m, d)

/-- Go's `t.Format(time.Stamp)` for the instant `t` seconds since the
Unix epoch: `"Jan _2 15:04:05"`. -/
def goStamp (t : Int) : String :=
  let days := t.fdiv 86400
  let secs := (t - days * 86400).toNat
  let hh := secs / 3600
  let mm := secs % 3600 / 60
  let ss := secs % 60
  let md := (civilFromDays days).2
  monthAbbrev md.1 ++ " " ++ padSpace2 md.2 ++ " " ++
    pad02 hh ++ ":" ++ pad02 mm ++ ":" ++ pad02 ss

/-! ## The formatter (`display` in `main.go`) -/

/-- What `display` writes where: Go's `display` receives an `io.Writer`
parameter `w` but performs all its writes through `fmt.Printf`, which
writes to the process standard output. -/
structure DisplayOut where
  stdout : String
  writerOut : String
deriving Repr, DecidableEq

/-- Direct translation of Go's `display`. The `io.Writer` argument is
embedded as a value `w` of arbitrary type `α`; `time.Now().UTC()` is
embedded as the explicit parameter `now` (seconds since the Unix epoch).
Each `fmt.Printf` call appends to the `stdout` field of the result;
nothing is ever written to the writer argument. -/
def display {α : Type} (w : α) (wt : Weather) (opt : options) (now : Int) : DisplayOut :=
  let temperatureSymbol := if opt.units = "imperial" then "F" else "C"
  let windSpeedSymbol := if opt.units = "imperial" then "mi/h" else "m/s"
  let weatherSymbol := weatherIconToString wt.icon
  let _ := w
  if opt.verbose then
    let t := now + wt.timeZone
    { stdout :=
        (wt.cityName ++ " " ++ goStamp t ++ "\n") ++
        "========================\n" ++
        ("condition: " ++ weatherSymbol ++ " " ++ wt.conditions ++ "\n") ++
        ("temperature: " ++ fmtF0 wt.temperature ++ "°" ++ temperatureSymbol ++ "\n") ++
        ("pressure: " ++ fmtF0 wt.pressure ++ " hPa" ++ "\n") ++
        ("humidity: " ++ fmtF1 wt.humidity ++ "%" ++ "\n") ++
        ("wind: " ++ fmtF0 wt.windDegrees ++ "° " ++ fmtF1 wt.windSpeed ++ " " ++
          windSpeedSymbol ++ "\n"),
      writerOut := "" }
  else
    { stdout :=
        wt.cityName ++ " " ++ fmtF0 wt.temperature ++ "°" ++ temperatureSymbol ++ " " ++
          weatherSymbol ++ " " ++ wt.conditions ++ "\n",
      writerOut := "" }

/-- The concatenation of the chunks written by successive `fmt.Printf`
calls, in order. -/
def printfConcat (chunks : List String) : String :=
  chunks.foldl (· ++ ·) ""

/-- The seven lines of the verbose report, without their trailing
newlines, in the order the seven `fmt.Printf` calls of `display` print
them: header (city and timestamp), separator, condition, temperature,
pressure, humidity, wind. -/
def verboseLines (wt : Weather) (opt : options) (now : Int) : List String :=
  let temperatureSymbol := if opt.units = "imperial" then "F" else "C"
  let windSpeedSymbol := if opt.units = "imperial" then "mi/h" else "m/s"
  [wt.cityName ++ " " ++ goStamp (now + wt.timeZone),
   "========================",
   "condition: " ++ weatherIconToString wt.icon ++ " " ++ wt.conditions,
   "temperature: " ++ fmtF0 wt.temperature ++ "°" ++ temperatureSymbol,
   "pressure: " ++ fmtF0 wt.pressure ++ " hPa",
   "humidity: " ++ fmtF1 wt.humidity ++ "%",
   "wind: " ++ fmtF0 wt.windDegrees ++ "° " ++ fmtF1 wt.windSpeed ++ " " ++
     windSpeedSymbol]

/-- The synthetic fixture of the specification: temperature 3.2,
pressure 1011, humidity 81.0, wind direction 10, wind speed 7.7,
city `"Paris"`, description `"broken clouds"`, icon `"04d"`. -/
def parisFixture : Weather :=
  { cityName := "Paris"
    timeZone := 0
    visibility := 0
    temperature := 32 / 10
    pressure := 1011
    humidity := 81
    windSpeed := 77 / 10
    windDegrees := 10
    conditions := "broken clouds"
    icon := "04d" }

/-- Options record: units metric, verbose off. -/
def metricOpts : options :=
  { apiKey := "k", units := "metric", verbose := false, city := "paris" }

/-- Options record: units metric, verbose on. -/
def metricVerboseOpts : options :=
  { apiKey := "k", units := "metric", verbose := true, city := "paris" }

/-! ## The request builder (`makeRequestURL` in `main.go`) -/

/-- The fixed weather endpoint (`BASE_URL` constant in `main.go`). -/
def BASE_URL : String := "https://api.openweathermap.org/data/2.5/weather"

/-- Uppercase hexadecimal digit for `n < 16` (Go's `url` escaping uses
uppercase hex). -/
def upperHexDigit (n : Nat) : Char :=
  if n < 10 then digitChar n else Char.ofNat (55 + n)

/-- Escaping of one byte by Go's `url.QueryEscape`: ASCII alphanumerics
and `-`, `.`, `_`, `~` are kept, a space becomes `+`, and every other
byte becomes `%` followed by two uppercase hex digits. -/
def escapeByte (b : Nat) : List Char :=
  if (48 ≤ b && b ≤ 57) || (65 ≤ b && b ≤ 90) || (97 ≤ b && b ≤ 122) ||
     b == 45 || b == 46 || b == 95 || b == 126 then [Char.ofNat b]
  else if b == 32 then ['+']
  else ['%', upperHexDigit (b / 16), upperHexDigit (b % 16)]

/-- The UTF-8 bytes of a string (Go strings are byte slices; escaping
operates bytewise). -/
def strBytes (s : String) : List Nat := s.toUTF8.toList.map UInt8.toNat

/-- Go's `url.QueryEscape`: escape every UTF-8 byte of the string. -/
def queryEscape (s : String) : String :=
  String.mk ((strBytes s).flatMap escapeByte)

/-- Direct translation of Go's `makeRequestURL`:
`fmt.Sprintf("%s?q=%s&units=%s&appid=%s", BASE_URL, cityName, units, apiKey)`
after `url.QueryEscape` of the city name and the API key. -/
def makeRequestURL (cityName units apiKey : String) : String :=
  BASE_URL ++ "?q=" ++ queryEscape cityName ++ "&units=" ++ units ++
    "&appid=" ++ queryEscape apiKey

/-- Numeric value of a hexadecimal digit character, as accepted by Go's
`url.QueryUnescape`. -/
def hexVal (c : Char) : Option Nat :=
  if 48 ≤ c.toNat && c.toNat ≤ 57 then some (c.toNat - 48)
  else if 65 ≤ c.toNat && c.toNat ≤ 70 then some (c.toNat - 55)
  else if 97 ≤ c.toNat && c.toNat ≤ 102 then some (c.toNat - 87)
  else none

/-- Go's `url.QueryUnescape` at byte level: `%XX` decodes to the byte
`XX`, `+` decodes to a space, any other character stands for its own
code; a malformed `%` escape is an error. Returns the decoded bytes. -/
def queryUnescape : List Char → Option (List Nat)
  | [] => some []
  | c :: rest =>
    if c = '%' then
      match rest with
      | c1 :: c2 :: rest2 =>
        match hexVal c1, hexVal c2, queryUnescape rest2 with
        | some h1, some h2, some r => some ((16 * h1 + h2) :: r)
        | _, _, _ => none
      | _ => none
    else if c = '+' then (queryUnescape rest).map (32 :: ·)
    else (queryUnescape rest).map (c.toNat :: ·)

/-- Split a character list at the first occurrence of `sep`; `none` if
`sep` does not occur. -/
def splitFirst (sep : Char) : List Char → Option (List Char × List Char)
  | [] => none
  | c :: rest =>
    if c = sep then some ([], rest)
    else (splitFirst sep rest).map fun p => (c :: p.1, p.2)

/-- Split a character list on every occurrence of `sep`. -/
def splitOnChar (sep : Char) : List Char → List (List Char)
  | [] => [[]]
  | c :: rest =>
    match splitOnChar sep rest with
    | [] => [[c]]
    | cur :: rs =>
      if c = sep then [] :: cur :: rs else (c :: cur) :: rs

/-- Parse a URL of the shape `base?query` into the base and the list of
`key=value` query parameters (splitting the query on `&`, each item at
its first `=`; an item with no `=` maps to the empty value). -/
def parseQueryURL (u : String) : Option (String × List (String × String)) :=
  match splitFirst '?' u.data with
  | none => none
  | some (base, query) =>
    let pairs := (splitOnChar '&' query).map fun kv =>
      match splitFirst '=' kv with
      | none => (String.mk kv, "")
      | some p => (String.mk p.1, String.mk p.2)
    some (String.mk base, pairs)

/-! ## The fetcher and decoder (`fetchWeather` in `main.go`) -/

/-- Go's `net/http.StatusText`: the standard reason phrase for an HTTP
status code, `""` for unknown codes. -/
def statusText (code : Nat) : String :=
  match code with
  | 100 => "Continue"
  | 101 => "Switching Protocols"
  | 102 => "Processing"
  | 103 => "Early Hints"
  | 200 => "OK"
  | 201 => "Created"
  | 202 => "Accepted"
  | 203 => "Non-Authoritative Information"
  | 204 => "No Content"
  | 205 => "Reset Content"
  | 206 => "Partial Content"
  | 207 => "Multi-Status"
  | 208 => "Already Reported"
  | 226 => "IM Used"
  | 300 => "Multiple Choices"
  | 301 => "Moved Permanently"
  | 302 => "Found"
  | 303 => "See Other"
  | 304 => "Not Modified"
  | 305 => "Use Proxy"
  | 307 => "Temporary Redirect"
  | 308 => "Permanent Redirect"
  | 400 => "Bad Request"
  | 401 => "Unauthorized"
  | 402 => "Payment Required"
  | 403 => "Forbidden"
  | 404 => "Not Found"
  | 405 => "Method Not Allowed"
  | 406 => "Not Acceptable"
  | 407 => "Proxy Authentication Required"
  | 408 => "Request Timeout"
  | 409 => "Conflict"
  | 410 => "Gone"
  | 411 => "Length Required"
  | 412 => "Precondition Failed"
  | 413 => "Request Entity Too Large"
  | 414 => "Request URI Too Long"
  | 415 => "Unsupported Media Type"
  | 416 => "Requested Range Not Satisfiable"
  | 417 => "Expectation Failed"
  | 418 => "I'm a teapot"
  | 421 => "Misdirected Request"
  | 422 => "Unprocessable Entity"
  | 423 => "Locked"
  | 424 => "Failed Dependency"
  | 425 => "Too Early"
  | 426 => "Upgrade Required"
  | 428 => "Precondition Required"
  | 429 => "Too Many Requests"
  | 431 => "Request Header Fields Too Large"
  | 451 => "Unavailable For Legal Reasons"
  | 500 => "Internal Server Error"
  | 501 => "Not Implemented"
  | 502 => "Bad Gateway"
  | 503 => "Service Unavailable"
  | 504 => "Gateway Timeout"
  | 505 => "HTTP Version Not Supported"
  | 506 => "Variant Also Negotiates"
  | 507 => "Insufficient Storage"
  | 508 => "Loop Detected"
  | 510 => "Not Extended"
  | 511 => "Network Authentication Required"
  | _ => ""

/-- One element of the `weather` array of the provider response
(the anonymous struct inside `fetchWeather`). -/
structure ResponseWeatherItem where
  main : String
  description : String
  icon : String
deriving Repr, DecidableEq

/-- The decoded provider response (the anonymous `response` struct
inside `fetchWeather`, flattened). -/
structure OWResponse where
  weather : List ResponseWeatherItem
  mainTemp : ℚ
  mainPressure : ℚ
  mainHumidity : ℚ
  windSpeed : ℚ
  windDeg : ℚ
  name : String
  timezone : Int
  visibility : ℚ
deriving Repr, DecidableEq

/-- The field-assignment segment of `fetchWeather`: build a `Weather`
from the decoded response. `w := &Weather{}` starts from zero values
(empty strings), and `Conditions`/`Icon` are set from `res.Weather[0]`
only when `len(res.Weather) > 0`. -/
def fetchWeatherDecode (res : OWResponse) : Weather :=
  { cityName := res.name
    timeZone := res.timezone
    visibility := res.visibility
    temperature := res.mainTemp
    pressure := res.mainPressure
    humidity := res.mainHumidity
    windSpeed := res.windSpeed
    windDegrees := res.windDeg
    conditions := match res.weather with | [] => "" | x :: _ => x.description
    icon := match res.weather with | [] => "" | x :: _ => x.icon }

/-- A response fixture whose `weather` array is empty; the other fields
are zero values. -/
def emptyResponse : OWResponse :=
  { weather := [], mainTemp := 0, mainPressure := 0, mainHumidity := 0,
    windSpeed := 0, windDeg := 0, name := "", timezone := 0, visibility := 0 }

/-- The post-I/O logic of `fetchWeather`: given the HTTP status code of
the response and (when reached) the decoded body, either fail with
`fmt.Errorf("request status %d %s", code, http.StatusText(code))` —
taken when `resp.StatusCode != http.StatusOK` — or produce the
`Weather` value. -/
def fetchWeatherModel (statusCode : Nat) (body : OWResponse) : Except String Weather :=
  if statusCode ≠ 200 then
    Except.error ("request status " ++ natRepr statusCode ++ " " ++ statusText statusCode)
  else
    Except.ok (fetchWeatherDecode body)

/-! ## The `main` function: flag handling and validation -/

/-- Go's `unicode.IsSpace`. -/
def goIsSpace (c : Char) : Bool :=
  c.toNat = 32 || c.toNat = 9 || c.toNat = 10 || c.toNat = 11 || c.toNat = 12 ||
  c.toNat = 13 || c.toNat = 0x85 || c.toNat = 0xA0 || c.toNat = 0x1680 ||
  (0x2000 ≤ c.toNat && c.toNat ≤ 0x200A) || c.toNat = 0x2028 || c.toNat = 0x2029 ||
  c.toNat = 0x202F || c.toNat = 0x205F || c.toNat = 0x3000

/-- Go's `strings.TrimSpace`: drop leading and trailing whitespace. -/
def goTrimSpace (s : String) : String :=
  String.mk (((s.data.dropWhile goIsSpace).reverse.dropWhile goIsSpace).reverse)

/-- Go's `strings.Join(args, " ")`. -/
def joinSpace (args : List String) : String :=
  String.intercalate " " args

/-- The validator closure registered with `flag.Func` for `-units`. -/
def unitsFlagValidator (value : String) : Except String Unit :=
  if value ≠ "metric" ∧ value ≠ "imperial" then
    Except.error "unit must be 'metric' or 'imperial'"
  else
    Except.ok ()

/-- How far an invocation of `main` gets before its first network
access. -/
inductive MainOutcome where
  /-- `flag.Parse` failed (the `-units` validator rejected its value):
  the flag package prints the error and the usage text and the process
  exits with code 2. No network call is made. -/
  | usageExited (code : Nat) (flagError : String)
  /-- `exitWithError` ran: `ERROR: <msg>` was printed to standard error
  and the process exited with code 1. No network call is made. -/
  | fatalExited (code : Nat) (stderr : String)
  /-- Validation passed; `fetchWeather(opt.apiKey, opt.city, opt.units)`
  is invoked: the one network call of the program. -/
  | requestWeather (apiKey city units : String) (verbose : Bool)
deriving Repr, DecidableEq

/-- The outcome is a process exit with a non-zero exit code, reached
before the program's one network call (`fetchWeather`) is made. -/
def MainOutcome.isPreNetworkFailure : MainOutcome → Prop
  | MainOutcome.usageExited code _ => code ≠ 0
  | MainOutcome.fatalExited code _ => code ≠ 0
  | MainOutcome.requestWeather _ _ _ _ => False

/-- The flag-handling stage of `main`: `opt := options{units: "metric"}`,
`flag.StringVar(&opt.apiKey, "key", os.Getenv("OPENWEATHER_API_KEY"), …)`
(so the `-key` flag overrides the environment variable default),
`flag.BoolVar(&opt.verbose, "v", false, …)`, the `flag.Func` validator
for `-units`, `flag.Parse()`, and
`opt.city = strings.Join(flag.Args(), " ")`.

`unitsFlag`, `keyFlag` and `verboseFlag` are the command-line flag
values (`none` / `false` when the flag is absent), `envKey` the value of
the `OPENWEATHER_API_KEY` environment variable (`""` when unset), and
`args` the remaining positional arguments. A `-units` value rejected by
the validator makes `flag.Parse` fail: the error is the result. -/
def parseFlags (unitsFlag keyFlag : Option String) (envKey : String)
    (verboseFlag : Bool) (args : List String) : Except String options :=
  let apiKey := keyFlag.getD envKey
  match unitsFlag with
  | none =>
    Except.ok { apiKey := apiKey, units := "metric", verbose := verboseFlag,
                city := joinSpace args }
  | some v =>
    match unitsFlagValidator v with
    | Except.error e => Except.error e
    | Except.ok _ =>
      Except.ok { apiKey := apiKey, units := v, verbose := verboseFlag,
                  city := joinSpace args }

/-- Model of `main` up to its first network access. A failing
`flag.Parse` (exit code 2, error plus usage text printed) preempts
everything; then a missing API key, then a blank city, each reach
`exitWithError` (exit code 1); only past all three does `main` call
`fetchWeather(opt.apiKey, opt.city, opt.units)`. -/
def runMain (unitsFlag keyFlag : Option String) (envKey : String)
    (verboseFlag : Bool) (args : List String) : MainOutcome :=
  match parseFlags unitsFlag keyFlag envKey verboseFlag args with
  | Except.error e => MainOutcome.usageExited 2 e
  | Except.ok opt =>
    if opt.apiKey = "" then
      MainOutcome.fatalExited 1 "ERROR: OpenWeather API key is required\n"
    else if goTrimSpace opt.city = "" then
      MainOutcome.fatalExited 1 "ERROR: city name is required\n"
    else
      MainOutcome.requestWeather opt.apiKey opt.city opt.units opt.verbose

/-! ## Lemmas: digits and newline counting -/

theorem countNL_append (a b : String) : countNL (a ++ b) = countNL a + countNL b := by
  simp [countNL]

theorem digitChar_ne_newline (n : Nat) (h : n < 10) : digitChar n ≠ '\n' := by
  interval_cases n <;> decide

theorem natDigitsAux_mem (fuel n : Nat) (acc : List Char) :
    ∀ c ∈ natDigitsAux fuel n acc, (∃ m, m < 10 ∧ c = digitChar m) ∨ c ∈ acc := by
  induction fuel generalizing n acc with
  | zero => intro c hc; exact Or.inr hc
  | succ fuel ih =>
    intro c hc
    rw [natDigitsAux] at hc
    split at hc
    · rcases List.mem_cons.mp hc with rfl | h1
      · exact Or.inl ⟨n, by omega, rfl⟩
      · exact Or.inr h1
    · rcases ih (n / 10) (digitChar (n % 10) :: acc) c hc with h1 | h1
      · exact Or.inl h1
      · rcases List.mem_cons.mp h1 with rfl | h2
        · exact Or.inl ⟨n % 10, Nat.mod_lt _ (by omega), rfl⟩
        · exact Or.inr h2

theorem natDigits_ne_newline (n : Nat) : ∀ c ∈ natDigits n, c ≠ '\n' := by
  intro c hc
  rcases natDigitsAux_mem (n + 1) n [] c hc with ⟨m, hm, rfl⟩ | h
  · exact digitChar_ne_newline m hm
  · simp at h

theorem countNL_natRepr (n : Nat) : countNL (natRepr n) = 0 := by
  simp only [countNL, natRepr]
  exact List.count_eq_zero.mpr fun h => natDigits_ne_newline n '\n' h rfl

/-! ## Lemmas: evaluating the float formatters -/

theorem rhe_eq_of_lt (q : ℚ) (f : ℤ) (hf : ⌊q⌋ = f) (hlt : 2 * (q - (f : ℚ)) < 1) :
    rhe q = f := by
  simp only [rhe, hf, if_pos hlt]

theorem rhe_eq_of_gt (q : ℚ) (f : ℤ) (hf : ⌊q⌋ = f) (hgt : 1 < 2 * (q - (f : ℚ))) :
    rhe q = f + 1 := by
  simp only [rhe, hf]
  rw [if_neg (by linarith), if_pos hgt]

theorem fmtF0_eval (q : ℚ) (n : ℕ) (h0 : 0 ≤ q) (hf : ⌊q⌋ = (n : ℤ))
    (hlt : 2 * (q - (n : ℚ)) < 1) : fmtF0 q = natRepr n := by
  have h1 : ¬ q < 0 := not_lt.mpr h0
  have h2 : |q| = q := abs_of_nonneg h0
  simp only [fmtF0, if_neg h1, h2, rhe_eq_of_lt q n hf (by push_cast; linarith),
    Int.toNat_natCast]
  simp

theorem fmtF1_eval (q : ℚ) (m : ℕ) (h0 : 0 ≤ q) (hf : ⌊q * 10⌋ = (m : ℤ))
    (hlt : 2 * (q * 10 - (m : ℚ)) < 1) :
    fmtF1 q = natRepr (m / 10) ++ "." ++ natRepr (m % 10) := by
  have h1 : ¬ q < 0 := not_lt.mpr h0
  have h2 : |q| = q := abs_of_nonneg h0
  simp only [fmtF1, if_neg h1, h2, rhe_eq_of_lt (q * 10) m hf (by push_cast; linarith),
    Int.toNat_natCast]
  simp

theorem fmtF0_temp_fixture : fmtF0 ((32 : ℚ) / 10) = "3" := by
  rw [fmtF0_eval ((32 : ℚ) / 10) 3 (by norm_num)
    (by rw [Int.floor_eq_iff]; norm_num) (by norm_num)]
  rfl

theorem fmtF0_pressure_fixture : fmtF0 (1011 : ℚ) = "1011" := by
  rw [fmtF0_eval 1011 1011 (by norm_num)
    (by rw [Int.floor_eq_iff]; norm_num) (by norm_num)]
  rfl

theorem fmtF0_deg_fixture : fmtF0 (10 : ℚ) = "10" := by
  rw [fmtF0_eval 10 10 (by norm_num)
    (by rw [Int.floor_eq_iff]; norm_num) (by norm_num)]
  rfl

theorem fmtF1_humidity_fixture : fmtF1 (81 : ℚ) = "81.0" := by
  rw [fmtF1_eval 81 810 (by norm_num)
    (by rw [Int.floor_eq_iff]; norm_num) (by norm_num)]
  rfl

theorem fmtF1_wind_fixture : fmtF1 ((77 : ℚ) / 10) = "7.7" := by
  rw [fmtF1_eval ((77 : ℚ) / 10) 77 (by norm_num)
    (by rw [Int.floor_eq_iff]; norm_num) (by norm_num)]
  rfl

/-! ## Claim C1: the non-verbose fixture line -/

/-- C1: For the fixed synthetic fixture (temperature 3.2, pressure 1011,
humidity 81.0, wind direction 10, wind speed 7.7, city `"Paris"`,
description `"broken clouds"`, icon `"04d"`) with units metric and
verbose off, the formatter writes to standard output exactly the single
line `"Paris 3°C ☁️ broken clouds\n"`: city name, rounded temperature
`3` with degree symbol and unit letter `C`, the clouds glyph for icon
`"04d"`, and the description — byte for byte. -/
theorem C1_nonverbose_fixture_output :
    (display () parisFixture metricOpts 0).stdout = "Paris 3°C ☁️ broken clouds\n" := by
  show "Paris" ++ " " ++ fmtF0 ((32 : ℚ) / 10) ++ "°" ++ "C" ++ " " ++ "☁️" ++ " " ++
      "broken clouds" ++ "\n" = _
  rw [fmtF0_temp_fixture]
  rfl

/-! ## Claim C4: decoding of the `weather` array -/

/-- C4: for every decoded provider response, if the `weather` array is
empty the resulting `Weather` has empty condition description and icon
(and the fetcher still succeeds, raising no error); if it is non-empty,
the condition description and icon come from its first element. -/
theorem C4_decode_weather_array (res : OWResponse) :
    (res.weather = [] →
      (fetchWeatherDecode res).conditions = "" ∧ (fetchWeatherDecode res).icon = "") ∧
    (∀ x xs, res.weather = x :: xs →
      (fetchWeatherDecode res).conditions = x.description ∧
      (fetchWeatherDecode res).icon = x.icon) ∧
    fetchWeatherModel 200 res = Except.ok (fetchWeatherDecode res) := by
  refine ⟨?_, ?_, rfl⟩
  · intro h
    simp [fetchWeatherDecode, h]
  · intro x xs h
    simp [fetchWeatherDecode, h]

/-- Witness for C4 at a concrete response with an empty `weather`
array. -/
theorem C4_decode_weather_array_witness :
    (fetchWeatherDecode emptyResponse).conditions = "" ∧
    (fetchWeatherDecode emptyResponse).icon = "" :=
  (C4_decode_weather_array emptyResponse).1 rfl

/-! ## Claim C5: status-code handling of the fetcher -/

/-- C5 (amended): the fetcher fails with the error
`request status <code> <reason phrase>` exactly when the status code is
not 200 (not: not 2xx), and succeeds into the decode stage otherwise;
in particular a 404 response yields the error message
`"request status 404 Not Found"`, which carries the numeric code and its
standard reason phrase. -/
theorem C5_fetch_status_check (code : Nat) (body : OWResponse) :
    (code ≠ 200 → fetchWeatherModel code body =
      Except.error ("request status " ++ natRepr code ++ " " ++ statusText code)) ∧
    (code = 200 → fetchWeatherModel code body = Except.ok (fetchWeatherDecode body)) ∧
    statusText 404 = "Not Found" ∧
    fetchWeatherModel 404 body = Except.error "request status 404 Not Found" := by
  refine ⟨?_, ?_, rfl, ?_⟩
  · intro h
    simp [fetchWeatherModel, h]
  · intro h
    subst h
    rfl
  · rfl

/-- Witness for C5 at the concrete status code 404. -/
theorem C5_fetch_status_check_witness :
    fetchWeatherModel 404 emptyResponse =
      Except.error ("request status " ++ natRepr 404 ++ " " ++ statusText 404) :=
  (C5_fetch_status_check 404 emptyResponse).1 (by decide)

/-- Counterexample to C5 as stated: 204 is a 2xx status code, yet the
code errors out on it (the source tests `!= http.StatusOK`, i.e.
`!= 200`, not "not 2xx"), so a 204 response does not proceed to the
decode stage. -/
theorem C5_not_2xx_counterexample :
    (200 ≤ 204 ∧ 204 < 300) ∧
    fetchWeatherModel 204 emptyResponse = Except.error "request status 204 No Content" :=
  ⟨by omega, rfl⟩

/-! ## Claim C6: totality of the icon mapper -/

/-- C6: the icon mapper is a pure total function: every code of the
fixed hand-maintained day/night table maps to its glyph, and every
string outside the table maps to the empty string (never an error). -/
theorem C6_icon_mapper_total (s : String) :
    (∀ g, (s, g) ∈ iconTable → weatherIconToString s = g) ∧
    (s ∉ iconTable.map Prod.fst → weatherIconToString s = "") := by
  constructor
  · intro g hg
    fin_cases hg <;> rfl
  · intro hs
    unfold weatherIconToString
    split
    all_goals first
      | rfl
      | exact absurd (by decide) hs

/-- Witness for C6: the unknown code `"99x"` maps to the empty glyph,
and the known code `"01d"` maps to its table glyph. -/
theorem C6_icon_mapper_total_witness :
    weatherIconToString "99x" = "" ∧ weatherIconToString "01d" = "☀️" :=
  ⟨(C6_icon_mapper_total "99x").2 (by decide),
   (C6_icon_mapper_total "01d").1 "☀️" (by decide)⟩

/-! ## Claim C9: day/night glyph relations -/

/-- C9: for every icon prefix other than clear sky, the day and night
variants map to the same glyph; clear sky maps day and night to
different glyphs; scattered clouds (`03`) and broken clouds (`04`)
share a single glyph. -/
theorem C9_day_night_glyphs :
    (∀ p ∈ (["02", "03", "04", "09", "10", "11", "13", "50"] : List String),
      weatherIconToString (p ++ "d") = weatherIconToString (p ++ "n")) ∧
    weatherIconToString "01d" ≠ weatherIconToString "01n" ∧
    weatherIconToString "03d" = weatherIconToString "04d" ∧
    weatherIconToString "03n" = weatherIconToString "04n" := by
  refine ⟨?_, by decide, rfl, rfl⟩
  intro p hp
  fin_cases hp <;> rfl

/-- Witness for C9 at the concrete prefix `"02"`. -/
theorem C9_day_night_glyphs_witness :
    weatherIconToString "02d" = weatherIconToString "02n" :=
  C9_day_night_glyphs.1 "02" (by decide)

/-! ## Lemmas: newline counts of the report components -/

theorem countNL_fmtF0 (q : ℚ) : countNL (fmtF0 q) = 0 := by
  unfold fmtF0
  simp only [countNL_append, countNL_natRepr]
  split <;> rfl

theorem countNL_fmtF1 (q : ℚ) : countNL (fmtF1 q) = 0 := by
  unfold fmtF1
  simp only [countNL_append, countNL_natRepr]
  split <;> rfl

theorem countNL_pad02 (n : Nat) : countNL (pad02 n) = 0 := by
  unfold pad02
  split
  · rw [countNL_append, countNL_natRepr]
    rfl
  · exact countNL_natRepr n

theorem countNL_padSpace2 (n : Nat) : countNL (padSpace2 n) = 0 := by
  unfold padSpace2
  split
  · rw [countNL_append, countNL_natRepr]
    rfl
  · exact countNL_natRepr n

theorem countNL_monthAbbrev (m : Nat) : countNL (monthAbbrev m) = 0 := by
  unfold monthAbbrev
  split <;> rfl

theorem countNL_goStamp (t : Int) : countNL (goStamp t) = 0 := by
  unfold goStamp
  simp only [countNL_append, countNL_monthAbbrev, countNL_pad02, countNL_padSpace2]
  rfl

theorem countNL_weatherIcon (s : String) : countNL (weatherIconToString s) = 0 := by
  unfold weatherIconToString
  split <;> rfl

theorem countNL_foldl (L : List String) (i : String) :
    countNL (L.foldl (· ++ ·) i) = countNL i + (L.map countNL).sum := by
  induction L generalizing i with
  | nil => simp
  | cons a L ih =>
    rw [List.foldl_cons, ih (i ++ a), countNL_append]
    simp [Nat.add_assoc]

theorem sum_countNL_lines (L : List String) (h : ∀ l ∈ L, countNL l = 0) :
    ((L.map (· ++ "\n")).map countNL).sum = L.length := by
  induction L with
  | nil => rfl
  | cons a L ih =>
    have ha : countNL a = 0 := h a (List.mem_cons_self a L)
    have hL := ih fun l hl => h l (List.mem_cons_of_mem a hl)
    simp only [List.map_cons, List.sum_cons, hL, countNL_append, ha, List.length_cons]
    have h1 : countNL ("\n" : String) = 1 := rfl
    omega

theorem countNL_printfConcat_lines (L : List String) (h : ∀ l ∈ L, countNL l = 0) :
    countNL (printfConcat (L.map (· ++ "\n"))) = L.length := by
  unfold printfConcat
  rw [countNL_foldl, sum_countNL_lines L h]
  have h0 : countNL ("" : String) = 0 := rfl
  omega

/-! ## Claim C2: the verbose report -/

/-- C2 (amended): for every weather reading whose city name and
condition description contain no newline, with verbose mode on the
formatter's standard-output text is exactly the seven lines of
`verboseLines`, each terminated by a newline: a header line (city name
plus the `time.Stamp` timestamp of the timezone offset added to the
current UTC instant), a separator line of `=` characters, then
condition, temperature, pressure, humidity and wind lines — seven
lines in total (not six as claimed), with humidity formatted to 1
decimal place, pressure rounded to an integer, wind direction rounded
to an integer, and wind speed to 1 decimal place. -/
theorem C2_verbose_report (α : Type) (w : α) (wt : Weather) (opt : options) (now : Int)
    (hv : opt.verbose = true) (hc : countNL wt.cityName = 0)
    (hd : countNL wt.conditions = 0) :
    (display w wt opt now).stdout =
      printfConcat ((verboseLines wt opt now).map (· ++ "\n")) ∧
    (verboseLines wt opt now).length = 7 ∧
    (∀ l ∈ verboseLines wt opt now, countNL l = 0) ∧
    countNL (display w wt opt now).stdout = 7 := by
  have hlines : ∀ l ∈ verboseLines wt opt now, countNL l = 0 := by
    intro l hl
    have hl' : l = wt.cityName ++ " " ++ goStamp (now + wt.timeZone) ∨
        l = "========================" ∨
        l = "condition: " ++ weatherIconToString wt.icon ++ " " ++ wt.conditions ∨
        l = "temperature: " ++ fmtF0 wt.temperature ++ "°" ++
              (if opt.units = "imperial" then "F" else "C") ∨
        l = "pressure: " ++ fmtF0 wt.pressure ++ " hPa" ∨
        l = "humidity: " ++ fmtF1 wt.humidity ++ "%" ∨
        l = "wind: " ++ fmtF0 wt.windDegrees ++ "° " ++ fmtF1 wt.windSpeed ++ " " ++
              (if opt.units = "imperial" then "mi/h" else "m/s") := by
      unfold verboseLines at hl
      simpa using hl
    rcases hl' with rfl | rfl | rfl | rfl | rfl | rfl | rfl
    all_goals first
      | rfl
      | (simp only [countNL_append, hc, hd, countNL_goStamp, countNL_weatherIcon,
           countNL_fmtF0, countNL_fmtF1]
         first
           | rfl
           | (split <;> rfl))
  have hstdout : (display w wt opt now).stdout =
      printfConcat ((verboseLines wt opt now).map (· ++ "\n")) := by
    obtain ⟨ak, u, v, c⟩ := opt
    cases v
    · cases hv
    · exact rfl
  refine ⟨hstdout, ?_, hlines, ?_⟩
  · exact rfl
  · rw [hstdout, countNL_printfConcat_lines _ hlines]
    exact rfl

/-- Witness for C2 at the synthetic fixture with verbose on. -/
theorem C2_verbose_report_witness :
    metricVerboseOpts.verbose = true ∧
    countNL parisFixture.cityName = 0 ∧ countNL parisFixture.conditions = 0 ∧
    countNL (display () parisFixture metricVerboseOpts 0).stdout = 7 :=
  ⟨rfl, rfl, rfl,
   (C2_verbose_report Unit () parisFixture metricVerboseOpts 0 rfl rfl rfl).2.2.2⟩

/-- Counterexample to C2 as stated: at the synthetic fixture the verbose
report is this concrete string, which consists of 7 newline-terminated
lines (header, separator, condition, temperature, pressure, humidity,
wind), not 6 as the claim counts. -/
theorem C2_six_lines_counterexample :
    (display () parisFixture metricVerboseOpts 0).stdout =
      "Paris Jan  1 00:00:00\n========================\ncondition: ☁️ broken clouds\ntemperature: 3°C\npressure: 1011 hPa\nhumidity: 81.0%\nwind: 10° 7.7 m/s\n" ∧
    countNL (display () parisFixture metricVerboseOpts 0).stdout = 7 := by
  have h1 : (display () parisFixture metricVerboseOpts 0).stdout =
      "Paris Jan  1 00:00:00\n========================\ncondition: ☁️ broken clouds\ntemperature: 3°C\npressure: 1011 hPa\nhumidity: 81.0%\nwind: 10° 7.7 m/s\n" := by
    show ("Paris" ++ " " ++ goStamp (0 + 0) ++ "\n") ++
        "========================\n" ++
        ("condition: " ++ "☁️" ++ " " ++ "broken clouds" ++ "\n") ++
        ("temperature: " ++ fmtF0 ((32 : ℚ) / 10) ++ "°" ++ "C" ++ "\n") ++
        ("pressure: " ++ fmtF0 (1011 : ℚ) ++ " hPa" ++ "\n") ++
        ("humidity: " ++ fmtF1 (81 : ℚ) ++ "%" ++ "\n") ++
        ("wind: " ++ fmtF0 (10 : ℚ) ++ "° " ++ fmtF1 ((77 : ℚ) / 10) ++ " " ++
          "m/s" ++ "\n") = _
    rw [fmtF0_temp_fixture, fmtF0_pressure_fixture, fmtF1_humidity_fixture,
      fmtF0_deg_fixture, fmtF1_wind_fixture]
    rfl
  refine ⟨h1, ?_⟩
  rw [h1]
  rfl

/-! ## Lemmas: percent-encoding and URL structure -/

theorem char_toNat_ofNat (b : Nat) (hb : b < 256) : (Char.ofNat b).toNat = b := by
  have hv : b.isValidChar := Or.inl (by omega)
  simp [Char.ofNat, Char.ofNatAux, hv, Char.toNat, UInt32.toNat, BitVec.toNat_ofNatLt]

theorem char_ofNat_ne (b t : Nat) (hb : b < 256) (c : Char) (hc : c.toNat = t)
    (h : b ≠ t) : Char.ofNat b ≠ c :=
  fun he => h (by rw [← hc, ← he, char_toNat_ofNat b hb])

theorem hexVal_upperHexDigit (n : Nat) (h : n < 16) :
    hexVal (upperHexDigit n) = some n := by
  interval_cases n <;> rfl

theorem upperHexDigit_ne_amp (n : Nat) (h : n < 16) : upperHexDigit n ≠ '&' := by
  interval_cases n <;> decide

theorem queryUnescape_other (c : Char) (rest : List Char) (h1 : c ≠ '%')
    (h2 : c ≠ '+') :
    queryUnescape (c :: rest) = (queryUnescape rest).map (c.toNat :: ·) := by
  rw [queryUnescape.eq_def]
  dsimp only
  rw [if_neg h1, if_neg h2]

theorem queryUnescape_plus (rest : List Char) :
    queryUnescape ('+' :: rest) = (queryUnescape rest).map (32 :: ·) := by
  rw [queryUnescape.eq_def]
  dsimp only
  rw [if_neg (by decide : ('+' : Char) ≠ '%'), if_pos rfl]

theorem queryUnescape_pct (c1 c2 : Char) (rest : List Char) (n1 n2 : Nat)
    (h1 : hexVal c1 = some n1) (h2 : hexVal c2 = some n2) :
    queryUnescape ('%' :: c1 :: c2 :: rest) =
      (queryUnescape rest).map ((16 * n1 + n2) :: ·) := by
  rw [queryUnescape.eq_def]
  dsimp only
  rw [if_pos rfl, h1, h2]
  rcases hq : queryUnescape rest with _ | r <;> rfl

theorem escapeByte_unescape (b : Nat) (hb : b < 256) (rest : List Char) :
    queryUnescape (escapeByte b ++ rest) = (queryUnescape rest).map (b :: ·) := by
  unfold escapeByte
  split
  · next h1 =>
    simp only [Bool.or_eq_true, Bool.and_eq_true, decide_eq_true_eq, beq_iff_eq] at h1
    rw [List.singleton_append,
      queryUnescape_other (Char.ofNat b) rest
        (char_ofNat_ne b 37 hb '%' rfl (by omega))
        (char_ofNat_ne b 43 hb '+' rfl (by omega)),
      char_toNat_ofNat b hb]
  · split
    · next h2 =>
      simp only [beq_iff_eq] at h2
      subst h2
      rw [List.singleton_append, queryUnescape_plus]
    · next h1 h2 =>
      simp only [List.cons_append, List.nil_append]
      rw [queryUnescape_pct (upperHexDigit (b / 16)) (upperHexDigit (b % 16)) rest
        (b / 16) (b % 16)
        (hexVal_upperHexDigit (b / 16) (by omega))
        (hexVal_upperHexDigit (b % 16) (by omega))]
      have hb16 : 16 * (b / 16) + b % 16 = b := by omega
      rw [hb16]

theorem unescape_escape_bytes (bs : List Nat) (h : ∀ b ∈ bs, b < 256) :
    queryUnescape (bs.flatMap escapeByte) = some bs := by
  induction bs with
  | nil => rfl
  | cons b bs ih =>
    rw [List.flatMap_cons,
      escapeByte_unescape b (h b (List.mem_cons_self b bs)) _,
      ih fun x hx => h x (List.mem_cons_of_mem b hx)]
    rfl

theorem strBytes_lt (s : String) : ∀ b ∈ strBytes s, b < 256 := by
  intro b hb
  simp only [strBytes, List.mem_map] at hb
  obtain ⟨x, -, rfl⟩ := hb
  exact UInt8.toNat_lt x

/-- Percent-encoding correctness: decoding inverts `queryEscape` on the
UTF-8 bytes of the input. -/
theorem queryEscape_roundtrip (s : String) :
    queryUnescape (queryEscape s).data = some (strBytes s) :=
  unescape_escape_bytes (strBytes s) (strBytes_lt s)

theorem escapeByte_ne_amp (b : Nat) (hb : b < 256) :
    ∀ c ∈ escapeByte b, c ≠ '&' := by
  intro c hc
  unfold escapeByte at hc
  split at hc
  · next h1 =>
    simp only [Bool.or_eq_true, Bool.and_eq_true, decide_eq_true_eq, beq_iff_eq] at h1
    rcases List.mem_singleton.mp hc with rfl
    exact char_ofNat_ne b 38 hb '&' rfl (by omega)
  · split at hc
    · rcases List.mem_singleton.mp hc with rfl
      decide
    · rcases List.mem_cons.mp hc with rfl | hc2
      · decide
      · rcases List.mem_cons.mp hc2 with rfl | hc3
        · exact upperHexDigit_ne_amp (b / 16) (by omega)
        · rcases List.mem_singleton.mp hc3 with rfl
          exact upperHexDigit_ne_amp (b % 16) (by omega)

theorem queryEscape_ne_amp (s : String) : ∀ c ∈ (queryEscape s).data, c ≠ '&' := by
  intro c hc
  have hc2 : c ∈ (strBytes s).flatMap escapeByte := hc
  rcases List.mem_flatMap.mp hc2 with ⟨b, hb, hcb⟩
  exact escapeByte_ne_amp b (strBytes_lt s b hb) c hcb

theorem splitFirst_found (sep : Char) (l1 l2 : List Char) (h : ∀ c ∈ l1, c ≠ sep) :
    splitFirst sep (l1 ++ sep :: l2) = some (l1, l2) := by
  induction l1 with
  | nil =>
    simp [splitFirst]
  | cons c l1 ih =>
    rw [List.cons_append, splitFirst.eq_def]
    dsimp only
    rw [if_neg (h c (List.mem_cons_self c l1)),
      ih fun x hx => h x (List.mem_cons_of_mem c hx)]
    rfl

theorem splitOnChar_ne_nil (sep : Char) (l : List Char) : splitOnChar sep l ≠ [] := by
  cases l with
  | nil => rw [splitOnChar.eq_def]; simp
  | cons c rest =>
    rw [splitOnChar.eq_def]
    dsimp only
    cases hsp : splitOnChar sep rest with
    | nil => simp
    | cons cur rs => by_cases hcs : c = sep <;> simp [hcs]

theorem splitOnChar_no_sep (sep : Char) (l : List Char) (h : ∀ c ∈ l, c ≠ sep) :
    splitOnChar sep l = [l] := by
  induction l with
  | nil => rfl
  | cons c rest ih =>
    rw [splitOnChar.eq_def]
    dsimp only
    rw [ih fun x hx => h x (List.mem_cons_of_mem c hx)]
    dsimp only
    rw [if_neg (h c (List.mem_cons_self c rest))]

theorem splitOnChar_append (sep : Char) (l1 l2 : List Char) (h : ∀ c ∈ l1, c ≠ sep) :
    splitOnChar sep (l1 ++ sep :: l2) = l1 :: splitOnChar sep l2 := by
  induction l1 with
  | nil =>
    rw [List.nil_append, splitOnChar.eq_def]
    dsimp only
    cases hsp : splitOnChar sep l2 with
    | nil => exact absurd hsp (splitOnChar_ne_nil sep l2)
    | cons cur rs => simp
  | cons c l1 ih =>
    rw [List.cons_append, splitOnChar.eq_def]
    dsimp only
    rw [ih fun x hx => h x (List.mem_cons_of_mem c hx)]
    dsimp only
    rw [if_neg (h c (List.mem_cons_self c l1))]

/-! ## Claim C3: the request builder -/

/-- C3: for every non-empty city name, units value in
`{"metric", "imperial"}` and API key, `makeRequestURL` is a pure
function whose output URL parses as the fixed weather endpoint followed
by exactly the query parameters `q` (the percent-encoded city name),
`units` (the exact units value) and `appid` (the percent-encoded API
key); the percent-encoding is correct in that decoding it recovers the
original UTF-8 bytes of the city name and the API key. -/
theorem C3_request_url (city key units : String)
    (hu : units = "metric" ∨ units = "imperial") (_hc : city ≠ "") :
    parseQueryURL (makeRequestURL city units key) =
      some ("https://api.openweathermap.org/data/2.5/weather",
        [("q", queryEscape city), ("units", units), ("appid", queryEscape key)]) ∧
    queryUnescape (queryEscape city).data = some (strBytes city) ∧
    queryUnescape (queryEscape key).data = some (strBytes key) := by
  refine ⟨?_, queryEscape_roundtrip city, queryEscape_roundtrip key⟩
  have l1 : ("?q=" : String).data = ['?', 'q', '='] := rfl
  have l2 : ("&units=" : String).data = ['&', 'u', 'n', 'i', 't', 's', '='] := rfl
  have l3 : ("&appid=" : String).data = ['&', 'a', 'p', 'p', 'i', 'd', '='] := rfl
  have hdata : (makeRequestURL city units key).data =
      BASE_URL.data ++ '?' ::
        (('q' :: '=' :: (queryEscape city).data) ++ '&' ::
          ((['u', 'n', 'i', 't', 's', '='] ++ units.data) ++ '&' ::
            (['a', 'p', 'p', 'i', 'd', '='] ++ (queryEscape key).data))) := by
    simp [makeRequestURL, String.data_append, l1, l2, l3]
  have hBase : ∀ c ∈ (BASE_URL : String).data, c ≠ '?' := by decide
  have hsf : splitFirst '?' (makeRequestURL city units key).data =
      some (BASE_URL.data,
        ('q' :: '=' :: (queryEscape city).data) ++ '&' ::
          ((['u', 'n', 'i', 't', 's', '='] ++ units.data) ++ '&' ::
            (['a', 'p', 'p', 'i', 'd', '='] ++ (queryEscape key).data))) := by
    rw [hdata]
    exact splitFirst_found '?' _ _ hBase
  have hunits : ∀ c ∈ units.data, c ≠ '&' := by
    rcases hu with rfl | rfl <;> decide
  have hseg1 : ∀ c ∈ 'q' :: '=' :: (queryEscape city).data, c ≠ '&' := by
    intro c hc2
    rcases List.mem_cons.mp hc2 with rfl | hc3
    · decide
    · rcases List.mem_cons.mp hc3 with rfl | hc4
      · decide
      · exact queryEscape_ne_amp city c hc4
  have hseg2 : ∀ c ∈ ['u', 'n', 'i', 't', 's', '='] ++ units.data, c ≠ '&' := by
    intro c hc2
    rcases List.mem_append.mp hc2 with hc3 | hc3
    · fin_cases hc3 <;> decide
    · exact hunits c hc3
  have hseg3 : ∀ c ∈ ['a', 'p', 'p', 'i', 'd', '='] ++ (queryEscape key).data, c ≠ '&' := by
    intro c hc2
    rcases List.mem_append.mp hc2 with hc3 | hc3
    · fin_cases hc3 <;> decide
    · exact queryEscape_ne_amp key c hc3
  have hsplit : splitOnChar '&'
      (('q' :: '=' :: (queryEscape city).data) ++ '&' ::
        ((['u', 'n', 'i', 't', 's', '='] ++ units.data) ++ '&' ::
          (['a', 'p', 'p', 'i', 'd', '='] ++ (queryEscape key).data))) =
      [('q' :: '=' :: (queryEscape city).data),
       (['u', 'n', 'i', 't', 's', '='] ++ units.data),
       (['a', 'p', 'p', 'i', 'd', '='] ++ (queryEscape key).data)] := by
    rw [splitOnChar_append '&' _ _ hseg1, splitOnChar_append '&' _ _ hseg2,
      splitOnChar_no_sep '&' _ hseg3]
  have hkv1 : splitFirst '=' ('q' :: '=' :: (queryEscape city).data) =
      some (['q'], (queryEscape city).data) :=
    splitFirst_found '=' ['q'] _ (by decide)
  have hkv2 : splitFirst '=' (['u', 'n', 'i', 't', 's', '='] ++ units.data) =
      some (['u', 'n', 'i', 't', 's'], units.data) :=
    splitFirst_found '=' ['u', 'n', 'i', 't', 's'] _ (by decide)
  have hkv3 : splitFirst '=' (['a', 'p', 'p', 'i', 'd', '='] ++ (queryEscape key).data) =
      some (['a', 'p', 'p', 'i', 'd'], (queryEscape key).data) :=
    splitFirst_found '=' ['a', 'p', 'p', 'i', 'd'] _ (by decide)
  unfold parseQueryURL
  rw [hsf]
  dsimp only
  rw [hsplit]
  simp only [List.map_cons, List.map_nil, hkv1, hkv2, hkv3]
  rfl

/-- Witness for C3 at concrete inputs: a city with a space and a
non-ASCII letter, units metric, and an API key with a reserved
character. -/
theorem C3_request_url_witness :
    parseQueryURL (makeRequestURL "São Paulo" "metric" "k&y") =
      some ("https://api.openweathermap.org/data/2.5/weather",
        [("q", queryEscape "São Paulo"), ("units", "metric"),
         ("appid", queryEscape "k&y")]) ∧
    queryUnescape (queryEscape "São Paulo").data = some (strBytes "São Paulo") ∧
    queryUnescape (queryEscape "k&y").data = some (strBytes "k&y") :=
  C3_request_url "São Paulo" "k&y" "metric" (Or.inl rfl) (by decide)

/-! ## Claims C7 and C8: validation in `main` before the network call -/

theorem parseFlags_ok (unitsFlag keyFlag : Option String) (envKey : String)
    (verboseFlag : Bool) (args : List String) (opt : options)
    (h : parseFlags unitsFlag keyFlag envKey verboseFlag args = Except.ok opt) :
    opt.apiKey = keyFlag.getD envKey ∧ opt.city = joinSpace args ∧
    opt.verbose = verboseFlag ∧
    (unitsFlag = none → opt.units = "metric") ∧
    (∀ v, unitsFlag = some v → opt.units = v) := by
  rcases unitsFlag with _ | v
  · simp only [parseFlags, Except.ok.injEq] at h
    subst h
    simp
  · simp only [parseFlags] at h
    rcases hv : unitsFlagValidator v with e | u
    · rw [hv] at h
      cases h
    · rw [hv] at h
      simp only [Except.ok.injEq] at h
      subst h
      simp

/-- C7: for every invocation in which the API key (the `-key` flag value,
defaulting to the `OPENWEATHER_API_KEY` environment variable) resolves
to the empty string, or the space-joined city name is blank (empty or
whitespace-only), the process exits with a non-zero code after printing
a fatal error, and `fetchWeather` — the program's one network call — is
never invoked. -/
theorem C7_validation_exits_before_network (unitsFlag keyFlag : Option String)
    (envKey : String) (verboseFlag : Bool) (args : List String)
    (h : keyFlag.getD envKey = "" ∨ goTrimSpace (joinSpace args) = "") :
    MainOutcome.isPreNetworkFailure (runMain unitsFlag keyFlag envKey verboseFlag args) ∧
    ∀ k c u vb, runMain unitsFlag keyFlag envKey verboseFlag args ≠
      MainOutcome.requestWeather k c u vb := by
  unfold runMain
  rcases hpf : parseFlags unitsFlag keyFlag envKey verboseFlag args with e | opt
  · exact ⟨(by omega : (2 : Nat) ≠ 0), fun k c u vb => by simp⟩
  · obtain ⟨hak, hcity, -, -, -⟩ := parseFlags_ok _ _ _ _ _ _ hpf
    dsimp only
    by_cases hk : opt.apiKey = ""
    · rw [if_pos hk]
      exact ⟨(by omega : (1 : Nat) ≠ 0), fun k c u vb => by simp⟩
    · rcases h with h | h
      · exact absurd (hak.trans h) hk
      · rw [if_neg hk, if_pos (by rw [hcity]; exact h)]
        exact ⟨(by omega : (1 : Nat) ≠ 0), fun k c u vb => by simp⟩

/-- Witness for C7: no API key anywhere and no city argument. -/
theorem C7_validation_exits_before_network_witness :
    ((none : Option String).getD "" = "" ∨ goTrimSpace (joinSpace []) = "") ∧
    MainOutcome.isPreNetworkFailure (runMain none none "" false []) :=
  ⟨Or.inl rfl,
   (C7_validation_exits_before_network none none "" false [] (Or.inl rfl)).1⟩

/-- C8: every `-units` value other than the literals `"metric"` and
`"imperial"` is rejected by the flag-parsing stage itself — the flag
error is `unit must be 'metric' or 'imperial'` and the process exits
with code 2 after printing it together with the usage text, before any
network access; for accepted values the options record's units field is
exactly the given value, and `"metric"` when the flag is absent. -/
theorem C8_units_flag_validation (keyFlag : Option String) (envKey : String)
    (verboseFlag : Bool) (args : List String) :
    (∀ v, v ≠ "metric" → v ≠ "imperial" →
      parseFlags (some v) keyFlag envKey verboseFlag args =
        Except.error "unit must be 'metric' or 'imperial'" ∧
      runMain (some v) keyFlag envKey verboseFlag args =
        MainOutcome.usageExited 2 "unit must be 'metric' or 'imperial'" ∧
      MainOutcome.isPreNetworkFailure
        (runMain (some v) keyFlag envKey verboseFlag args)) ∧
    (∀ v, v = "metric" ∨ v = "imperial" →
      ∃ opt, parseFlags (some v) keyFlag envKey verboseFlag args = Except.ok opt ∧
        opt.units = v) ∧
    (∃ opt, parseFlags none keyFlag envKey verboseFlag args = Except.ok opt ∧
      opt.units = "metric") := by
  refine ⟨?_, ?_, ⟨_, rfl, rfl⟩⟩
  · intro v h1 h2
    have hval : unitsFlagValidator v = Except.error "unit must be 'metric' or 'imperial'" := by
      simp [unitsFlagValidator, h1, h2]
    have hpf : parseFlags (some v) keyFlag envKey verboseFlag args =
        Except.error "unit must be 'metric' or 'imperial'" := by
      simp [parseFlags, hval]
    refine ⟨hpf, ?_, ?_⟩
    · unfold runMain
      rw [hpf]
    · unfold runMain
      rw [hpf]
      exact (by omega : (2 : Nat) ≠ 0)
  · intro v hv
    have hval : unitsFlagValidator v = Except.ok () := by
      rcases hv with rfl | rfl <;> rfl
    exact ⟨{ apiKey := keyFlag.getD envKey, units := v, verbose := verboseFlag,
             city := joinSpace args },
           by simp [parseFlags, hval], rfl⟩

/-- Witness for C8 at the concrete rejected value `"kelvin"`. -/
theorem C8_units_flag_validation_witness :
    parseFlags (some "kelvin") none "" false [] =
      Except.error "unit must be 'metric' or 'imperial'" ∧
    runMain (some "kelvin") none "" false [] =
      MainOutcome.usageExited 2 "unit must be 'metric' or 'imperial'" ∧
    MainOutcome.isPreNetworkFailure (runMain (some "kelvin") none "" false []) :=
  (C8_units_flag_validation none "" false []).1 "kelvin" (by decide) (by decide)

/-! ## Claim C10: the writer argument of `display` is unused -/

/-- C10: for every weather reading, options record and writer argument,
`display` writes its entire output to the process standard output,
writes nothing to the writer parameter it receives, and its output does
not depend on the writer argument. -/
theorem C10_display_ignores_writer (α : Type) (w w' : α) (wt : Weather)
    (opt : options) (now : Int) :
    (display w wt opt now).writerOut = "" ∧
    display w wt opt now = display w' wt opt now := by
  refine ⟨?_, rfl⟩
  obtain ⟨ak, u, v, c⟩ := opt
  cases v
  · rfl
  · rfl

end WeatherApp
